import Mathlib

/-!
Verification of the Hermes robot firmware (src/firmware/config.py,
src/firmware/main.py, src/firmware/drivers.py) against its design
specification.

The Python firmware is shallowly embedded: pure computations become Lean
functions over Nat / Int / Rat, the mutable fields of `HermesSystem` and
`MotorController` become an explicit `HermesState` record, and each
cooperative task body becomes a state-transition function (one call of the
function is one yield-free step of the task, which the cooperative
scheduler of the firmware makes atomically visible to the other tasks).
Quantities the firmware represents as floats are modelled with exact
rationals (times, duties, distances) or reals (the gas concentration
curve, which uses log10 and powers of 10).
-/

namespace Hermes

/-- The direction bit table `PCF_CONTROL_BITS` from src/firmware/config.py,
verbatim: an active-low mask per (motor, direction) key. -/
def PCF_CONTROL_BITS : List (String × Nat) :=
  [ ("m1_horario",     0b11110110),
    ("m1_antihorario", 0b11111010),
    ("m2_horario",     0b11100111),
    ("m2_antihorario", 0b11011011),
    ("m3_horario",     0b11111010),
    ("m3_antihorario", 0b11110110),
    ("m4_horario",     0b11011011),
    ("m4_antihorario", 0b11100111) ]

/-- `PCF_CONTROL_BITS.get(key, 0xFF)` from `MotorController._update_pcf`
(src/firmware/main.py): a missing key defaults to the inactive byte 0xFF. -/
def pcfBitsGet (key : String) : Nat :=
  (PCF_CONTROL_BITS.lookup key).getD 0xFF

/-- The mask for motor `m` moving in direction `dir`, looked up under the
key `"m{m}_{dir}"` exactly as `MotorController._update_pcf` builds it. -/
def maskOf (m : Nat) (dir : String) : Nat :=
  pcfBitsGet ("m" ++ toString m ++ "_" ++ dir)

/-- `PCF8574_ADDRESSES[1 if m_num <= 2 else 2]` from
`MotorController._update_pcf`: motors 1-2 live on the expander chip at
0x20 and motors 3-4 on the chip at 0x24, the two keys with which the
method initialises `pcf_maps = {0x20: 0xFF, 0x24: 0xFF}`. -/
def chipAddr (m : Nat) : Nat :=
  if m ≤ 2 then 0x20 else 0x24

/-- `MotorController._update_pcf` (src/firmware/main.py): starting from
0xFF per chip, fold over the per-motor direction configurations, ANDing
each motor's mask into the byte of its assigned chip.  The result is the
map from chip address to the byte written to that chip. -/
def update_pcf (cfgs : List (Nat × String)) : Nat → Nat :=
  cfgs.foldl
    (fun maps mc =>
      fun a => if a = chipAddr mc.1 then Nat.land (maps a) (maskOf mc.1 mc.2) else maps a)
    (fun _ => 0xFF)

/-- The bits a motor "owns" on its chip: the bit positions that are driven
low by at least one of its two direction masks. -/
def ownedBits (m : Nat) : Finset Nat :=
  (Finset.range 8).filter
    (fun i => Nat.testBit (maskOf m "horario") i = false ∨
              Nat.testBit (maskOf m "antihorario") i = false)

/-- The chip-1 byte produced by `_update_pcf` for the full four-motor
configuration in which motor 1 turns `d1` and motor 2 turns `d2`
(motors 3 and 4 held clockwise; they live on the other chip). -/
def chip1Byte (d1 d2 : String) : Nat :=
  update_pcf [(1, d1), (2, d2), (3, "horario"), (4, "horario")] 0x20

/-- C1 counterexample: on chip 1 the owned bit-sets of motors 1 and 2 are
NOT disjoint — with motor 1 held clockwise ("horario"), flipping motor 2
from clockwise to counter-clockwise changes bit 2 of the merged byte, and
bit 2 is one of motor 1's owned bits.  The same overlap (bits 2 and 3)
exists between motors 3 and 4 on chip 2. -/
theorem c1_owned_bits_not_disjoint :
    Nat.testBit (chip1Byte "horario" "horario") 2 = true ∧
    Nat.testBit (chip1Byte "horario" "antihorario") 2 = false ∧
    2 ∈ ownedBits 1 ∧
    ¬ Disjoint (ownedBits 1) (ownedBits 2) ∧
    ¬ Disjoint (ownedBits 3) (ownedBits 4) := by
  decide

/-- C1 (amended): for every choice of the four motors' directions, the
byte `_update_pcf` produces for chip 1 equals 0xFF AND motor 1's mask AND
motor 2's mask, and the byte for chip 2 equals 0xFF AND motor 3's mask AND
motor 4's mask (the merge is a single write per chip, never one write per
motor); however, the owned bit-sets of the two motors sharing a chip
overlap (bits 2 and 3 on both chips), so a motor's owned bits in the
merged byte are NOT independent of the other motor's direction choice. -/
theorem c1_merged_byte_is_and_of_masks (d1 d2 d3 d4 : String) :
    update_pcf [(1, d1), (2, d2), (3, d3), (4, d4)] 0x20 =
      Nat.land (Nat.land 0xFF (maskOf 1 d1)) (maskOf 2 d2) ∧
    update_pcf [(1, d1), (2, d2), (3, d3), (4, d4)] 0x24 =
      Nat.land (Nat.land 0xFF (maskOf 3 d3)) (maskOf 4 d4) ∧
    ¬ Disjoint (ownedBits 1) (ownedBits 2) ∧
    ¬ Disjoint (ownedBits 3) (ownedBits 4) := by
  refine ⟨rfl, rfl, by decide, by decide⟩

/-- Python `int(x)` applied to a float: truncation toward zero, modelled on
exact rationals. -/
def pyInt (q : ℚ) : ℤ :=
  if 0 ≤ q then ⌊q⌋ else ⌈q⌉

/-- `max(0, min(1023, d))`, the duty clipping used by
`MotorController.set_speeds` (src/firmware/main.py) and by
`MotorDriver.set_speed_differential` (src/firmware/drivers.py). -/
def clampDuty (d : ℤ) : ℤ :=
  max 0 (min 1023 d)

/-- The four PWM duties applied by `MotorController.set_speeds`
(src/firmware/main.py): if the emergency stop is active the four requests
are first replaced by 0, then each request is truncated with `int` and
clipped into [0, 1023] before being written to its PWM channel. -/
def set_speeds (emergency : Bool) (m1 m2 m3 m4 : ℚ) : ℤ × ℤ × ℤ × ℤ :=
  let r : ℚ × ℚ × ℚ × ℚ := if emergency then (0, 0, 0, 0) else (m1, m2, m3, m4)
  (clampDuty (pyInt r.1), clampDuty (pyInt r.2.1),
   clampDuty (pyInt r.2.2.1), clampDuty (pyInt r.2.2.2))

/-- The four PWM duties applied by `MotorDriver.set_speed_differential`
(src/firmware/drivers.py): left duty `max(0, min(1023, int(1023 + adj_left)))`
on motors 1 and 2, right duty likewise from `adj_right` on motors 3 and 4. -/
def set_speed_differential (adj_left adj_right : ℚ) : ℤ × ℤ × ℤ × ℤ :=
  let l := clampDuty (pyInt (1023 + adj_left))
  let r := clampDuty (pyInt (1023 + adj_right))
  (l, l, r, r)

/-- One motor entry of a movement: PWM value and direction string. -/
structure MotorCfg where
  pwm : ℤ
  direction : String
deriving DecidableEq, Repr

/-- One movement: the per-motor (pwm, direction) configuration. -/
structure Movement where
  M1 : MotorCfg
  M2 : MotorCfg
  M3 : MotorCfg
  M4 : MotorCfg
deriving DecidableEq, Repr

/-- Modelled from the spec: the `ROBOT_MOVEMENTS` table referenced by
src/firmware/main.py is defined in a legacy config file that is not under
src/.  Its keys are the canonical Spanish command names used throughout
main.py, and its per-motor duty/direction entries follow the movement
table spelled out in `MotorDriver.move` (src/firmware/drivers.py) and in
spec section 4.5: full duty on all four motors, all clockwise for
forward, all counter-clockwise for backward, sides opposed for the turns,
zero duty for stop. -/
def ROBOT_MOVEMENTS : List (String × Movement) :=
  [ ("adelante",  ⟨⟨1023, "horario"⟩, ⟨1023, "horario"⟩,
                   ⟨1023, "horario"⟩, ⟨1023, "horario"⟩⟩),
    ("atras",     ⟨⟨1023, "antihorario"⟩, ⟨1023, "antihorario"⟩,
                   ⟨1023, "antihorario"⟩, ⟨1023, "antihorario"⟩⟩),
    ("izquierda", ⟨⟨1023, "antihorario"⟩, ⟨1023, "antihorario"⟩,
                   ⟨1023, "horario"⟩, ⟨1023, "horario"⟩⟩),
    ("derecha",   ⟨⟨1023, "horario"⟩, ⟨1023, "horario"⟩,
                   ⟨1023, "antihorario"⟩, ⟨1023, "antihorario"⟩⟩),
    ("stop",      ⟨⟨0, "horario"⟩, ⟨0, "horario"⟩,
                   ⟨0, "horario"⟩, ⟨0, "horario"⟩⟩) ]

/-- Modelled from the spec: the `COMMAND_MAPPING` alias table referenced
by `HermesSystem.handle_command` is defined in a legacy config file that
is not under src/.  Per spec section 6 it resolves the public command
names {FORWARD, BACKWARD, LEFT, RIGHT, STOP} (lowercased by the handler)
to the firmware's canonical Spanish names. -/
def COMMAND_MAPPING : List (String × String) :=
  [ ("forward", "adelante"), ("backward", "atras"),
    ("left", "izquierda"), ("right", "derecha"), ("stop", "stop") ]

/-- `COMMAND_MAPPING.get(cmd, cmd)` from `HermesSystem.handle_command`: a
command string missing from the alias table resolves to itself. -/
def commandMapGet (cmd : String) : String :=
  (COMMAND_MAPPING.lookup cmd).getD cmd

/-- Python `str.lower()` (the commands are plain ASCII words), written
over the character list so the kernel can evaluate it. -/
def pyLower (s : String) : String :=
  ⟨s.data.map Char.toLower⟩

/-- The mutable state of `HermesSystem` and `MotorController`
(src/firmware/main.py) that the claims quantify over.  `pidAccum` is the
internal accumulator of the PID controller; the `pid` library itself is
not under src/, so per the spec (sections 4.4-4.5) `pid.reset()` is
modelled as clearing this accumulator to 0.  `duties` are the PWM duties
currently applied to motors 1-4. -/
structure HermesState where
  active_command : String
  yaw : ℚ
  target_yaw : ℚ
  pidAccum : ℚ
  last_cmd_time : ℚ
  emergency_stop_active : Bool
  duties : ℤ × ℤ × ℤ × ℤ
deriving DecidableEq, Repr

/-- `MotorController.stop` (src/firmware/main.py): all four PWM duties go
to 0 (the direction chips are reset separately on the bus). -/
def motors_stop (s : HermesState) : HermesState :=
  { s with duties := (0, 0, 0, 0) }

/-- An inbound MQTT command payload as `handle_command` sees it:
either a JSON object whose optional `"command"` field is a string, or a
payload whose processing raises (non-JSON text, a JSON non-object, or a
non-string command value) — `handle_command` wraps everything in
`try ... except: pass`, so any such payload leaves the state untouched. -/
inductive Payload where
  | jsonObj (command : Option String)
  | malformed
deriving DecidableEq, Repr

/-- The decode phase of `HermesSystem.handle_command`:
`payload.get("command", "").lower()` pushed through
`COMMAND_MAPPING.get(cmd, cmd)`.  A malformed payload decodes to nothing
(the handler's `except: pass`). -/
def decode_cmd : Payload → Option String
  | .jsonObj c => some (commandMapGet (pyLower (c.getD "")))
  | .malformed => none

/-- `HermesSystem.handle_command` (src/firmware/main.py) as a single
state transition (the coroutine contains no await, so under the
cooperative scheduler it runs atomically): on a decodable payload it
stamps `last_cmd_time`, locks the heading and resets the PID accumulator
exactly when the decoded command is "adelante" and the active command is
not, installs the decoded command as `active_command`, and stops the
motors when the command is not a known movement.  A malformed payload
changes nothing. -/
def handle_command (now : ℚ) (s : HermesState) (p : Payload) : HermesState :=
  match decode_cmd p with
  | none => s
  | some cmd =>
    let s1 := { s with last_cmd_time := now }
    let s2 := if cmd = "adelante" ∧ s1.active_command ≠ "adelante"
              then { s1 with target_yaw := s1.yaw, pidAccum := 0 }
              else s1
    let s3 := { s2 with active_command := cmd }
    if (ROBOT_MOVEMENTS.lookup cmd).isSome then s3 else motors_stop s3

/-- The duties applied by one iteration of `HermesSystem.task_navigation`
(src/firmware/main.py), with the PID output abstracted as `correction`:
emergency stop forces 0 on all motors; "adelante" runs closed-loop
differential steering around base duty 1023 through
`MotorController.set_speeds`; any other known movement applies its
open-loop table duties; anything else stops the motors. -/
def task_navigation_duties (s : HermesState) (correction : ℚ) : ℤ × ℤ × ℤ × ℤ :=
  if s.emergency_stop_active then (0, 0, 0, 0)
  else if s.active_command = "adelante" then
    let base : ℚ := 1023
    set_speeds s.emergency_stop_active
      (base + correction) (base + correction) (base - correction) (base - correction)
  else
    match ROBOT_MOVEMENTS.lookup s.active_command with
    | some mov => set_speeds s.emergency_stop_active
        (mov.M1.pwm : ℚ) (mov.M2.pwm : ℚ) (mov.M3.pwm : ℚ) (mov.M4.pwm : ℚ)
    | none => (0, 0, 0, 0)

/-- C2: with `emergency_stop_active` true, a navigation tick applies duty
0 to every motor (for every active command and PID correction), and
`MotorController.set_speeds` applies duty 0 to every motor no matter what
duties the caller requests. -/
theorem c2_emergency_forces_zero_duty
    (s : HermesState) (correction m1 m2 m3 m4 : ℚ)
    (h : s.emergency_stop_active = true) :
    task_navigation_duties s correction = (0, 0, 0, 0) ∧
    set_speeds true m1 m2 m3 m4 = (0, 0, 0, 0) := by
  constructor
  · simp [task_navigation_duties, h]
  · simp [set_speeds, clampDuty, pyInt]

/-- C2 witness: a concrete emergency state with command "adelante" and
out-of-range requested duties still yields all-zero duties. -/
theorem c2_emergency_forces_zero_duty_witness :
    task_navigation_duties
      ⟨"adelante", 0, 0, 0, 0, true, (0, 0, 0, 0)⟩ 250 = (0, 0, 0, 0) ∧
    set_speeds true 5000 (-3) 512 1023 = (0, 0, 0, 0) :=
  c2_emergency_forces_zero_duty
    ⟨"adelante", 0, 0, 0, 0, true, (0, 0, 0, 0)⟩ 250 5000 (-3) 512 1023 rfl

/-- C3: handling a payload that decodes to "adelante" (FORWARD) while the
active command is not "adelante" sets `target_yaw` to the current yaw,
clears the PID accumulator and installs "adelante" — all inside the same
atomic transition; decoding to "adelante" while already in "adelante"
leaves `target_yaw` and the PID accumulator untouched; decoding to any
other command never touches `target_yaw` or the PID accumulator. -/
theorem c3_forward_entry_locks_heading (now : ℚ) (s : HermesState) (p : Payload) :
    (decode_cmd p = some "adelante" → s.active_command ≠ "adelante" →
      (handle_command now s p).target_yaw = s.yaw ∧
      (handle_command now s p).pidAccum = 0 ∧
      (handle_command now s p).active_command = "adelante") ∧
    (decode_cmd p = some "adelante" → s.active_command = "adelante" →
      (handle_command now s p).target_yaw = s.target_yaw ∧
      (handle_command now s p).pidAccum = s.pidAccum) ∧
    (∀ c, decode_cmd p = some c → c ≠ "adelante" →
      (handle_command now s p).target_yaw = s.target_yaw ∧
      (handle_command now s p).pidAccum = s.pidAccum) := by
  refine ⟨fun h1 h2 => ?_, fun h1 h2 => ?_, fun c h1 hc => ?_⟩
  · simp [handle_command, h1, h2, motors_stop, ROBOT_MOVEMENTS, List.lookup]
  · simp [handle_command, h1, h2, motors_stop, ROBOT_MOVEMENTS, List.lookup]
  · by_cases hl : (ROBOT_MOVEMENTS.lookup c).isSome <;>
      simp [handle_command, h1, hc, hl, motors_stop]

/-- C3 witness: from a concrete stopped state with yaw 7, the payload
`{"command": "FORWARD"}` locks `target_yaw` to 7 and clears the PID
accumulator, while a second FORWARD from the resulting "adelante" state
and a "STOP" command leave heading lock and PID state alone. -/
theorem c3_forward_entry_locks_heading_witness :
    (handle_command 5 ⟨"stop", 7, 0, 3, 0, false, (0, 0, 0, 0)⟩
        (.jsonObj (some "FORWARD"))).target_yaw = 7 ∧
    (handle_command 5 ⟨"stop", 7, 0, 3, 0, false, (0, 0, 0, 0)⟩
        (.jsonObj (some "FORWARD"))).pidAccum = 0 ∧
    (handle_command 6 ⟨"adelante", 7, 7, 3, 5, false, (0, 0, 0, 0)⟩
        (.jsonObj (some "FORWARD"))).target_yaw = 7 ∧
    (handle_command 6 ⟨"adelante", 7, 7, 3, 5, false, (0, 0, 0, 0)⟩
        (.jsonObj (some "FORWARD"))).pidAccum = 3 ∧
    (handle_command 7 ⟨"adelante", 9, 7, 3, 5, false, (0, 0, 0, 0)⟩
        (.jsonObj (some "STOP"))).target_yaw = 7 ∧
    (handle_command 7 ⟨"adelante", 9, 7, 3, 5, false, (0, 0, 0, 0)⟩
        (.jsonObj (some "STOP"))).pidAccum = 3 := by
  have h1 := (c3_forward_entry_locks_heading 5
      ⟨"stop", 7, 0, 3, 0, false, (0, 0, 0, 0)⟩ (.jsonObj (some "FORWARD"))).1
      (by decide) (by decide)
  have h2 := (c3_forward_entry_locks_heading 6
      ⟨"adelante", 7, 7, 3, 5, false, (0, 0, 0, 0)⟩ (.jsonObj (some "FORWARD"))).2.1
      (by decide) rfl
  have h3 := (c3_forward_entry_locks_heading 7
      ⟨"adelante", 9, 7, 3, 5, false, (0, 0, 0, 0)⟩ (.jsonObj (some "STOP"))).2.2
      "stop" (by decide) (by decide)
  exact ⟨h1.1, h1.2.1, h2.1, h2.2, h3.1, h3.2⟩

/-- One iteration of `HermesSystem.task_watchdog` (src/firmware/main.py):
when the active command is not "stop" and more than 2 seconds have passed
since `last_cmd_time`, force the active command to "stop" and stop the
motors; otherwise change nothing. -/
def task_watchdog_tick (now : ℚ) (s : HermesState) : HermesState :=
  if s.active_command ≠ "stop" then
    if now - s.last_cmd_time > 2 then
      motors_stop { s with active_command := "stop" }
    else s
  else s

/-- C5: one watchdog tick forces the active command to "stop" and zeroes
the motor duties exactly when the active command is not "stop" and the
time since the last command exceeds the 2-second timeout; in every other
case the tick is the identity. -/
theorem c5_watchdog_timeout (now : ℚ) (s : HermesState) :
    (s.active_command ≠ "stop" ∧ now - s.last_cmd_time > 2 →
      (task_watchdog_tick now s).active_command = "stop" ∧
      (task_watchdog_tick now s).duties = (0, 0, 0, 0)) ∧
    (¬ (s.active_command ≠ "stop" ∧ now - s.last_cmd_time > 2) →
      task_watchdog_tick now s = s) := by
  constructor
  · rintro ⟨ha, ht⟩
    simp only [task_watchdog_tick, if_pos ha, if_pos ht]
    exact ⟨rfl, rfl⟩
  · intro h
    by_cases ha : s.active_command ≠ "stop"
    · have ht : ¬ (now - s.last_cmd_time > 2) := fun ht => h ⟨ha, ht⟩
      simp only [task_watchdog_tick, if_pos ha, if_neg ht]
    · simp only [task_watchdog_tick, if_neg ha]

/-- C5 witness: with `active_command = "adelante"` and
`last_cmd_time = now - 2.1`, the tick forces "stop" and zero duties; with
`last_cmd_time = now - 1.9` it changes nothing. -/
theorem c5_watchdog_timeout_witness :
    (task_watchdog_tick (21/10)
        ⟨"adelante", 0, 0, 0, 0, false, (700, 700, 700, 700)⟩).active_command = "stop" ∧
    (task_watchdog_tick (21/10)
        ⟨"adelante", 0, 0, 0, 0, false, (700, 700, 700, 700)⟩).duties = (0, 0, 0, 0) ∧
    task_watchdog_tick (19/10)
        ⟨"adelante", 0, 0, 0, 0, false, (700, 700, 700, 700)⟩ =
      ⟨"adelante", 0, 0, 0, 0, false, (700, 700, 700, 700)⟩ := by
  have h1 := (c5_watchdog_timeout (21/10)
      ⟨"adelante", 0, 0, 0, 0, false, (700, 700, 700, 700)⟩).1
      ⟨by decide, by norm_num⟩
  have h2 := (c5_watchdog_timeout (19/10)
      ⟨"adelante", 0, 0, 0, 0, false, (700, 700, 700, 700)⟩).2
      (by rintro ⟨-, h⟩; norm_num at h)
  exact ⟨h1.1, h1.2, h2⟩

/-- Modelled from the spec: `SAFETY_CONFIG["gas_emergency_stop"]` comes
from a legacy config file that is not under src/; per spec section 4.6
the gas emergency stop is part of the running system, so the flag is
enabled. -/
def gas_emergency_stop : Bool := true

/-- The gas branch of one `HermesSystem.task_sensors_fast` iteration that
obtained a reading with the given `alert` classification
(src/firmware/main.py): on "peligro" (danger) or "critico" (critical),
with the gas emergency stop enabled and not already active, latch
`emergency_stop_active` and force the active command to "stop"; on any
other classification, clear `emergency_stop_active` if it was set.  The
branch never consults `active_command`. -/
def task_sensors_fast_step (s : HermesState) (alert : String) : HermesState :=
  if alert = "peligro" ∨ alert = "critico" then
    if gas_emergency_stop ∧ ¬ s.emergency_stop_active then
      { s with emergency_stop_active := true, active_command := "stop" }
    else s
  else
    if s.emergency_stop_active then { s with emergency_stop_active := false } else s

/-- C4: a gas reading classified "peligro" or "critico" leaves
`emergency_stop_active` true, any reading classified "normal" or
"advertencia" leaves it false (level-triggered, not latched) — so over a
normal-to-critical-to-normal sequence the flag rises on the critical
reading and falls again on the first subsequent benign reading — and the
resulting flag never depends on the active navigation command. -/
theorem c4_gas_emergency_level_triggered (s : HermesState) (a₁ a₂ : String)
    (hd : a₁ = "peligro" ∨ a₁ = "critico")
    (hs : a₂ = "normal" ∨ a₂ = "advertencia") :
    (task_sensors_fast_step s a₁).emergency_stop_active = true ∧
    (task_sensors_fast_step (task_sensors_fast_step s a₁) a₂).emergency_stop_active
      = false ∧
    (task_sensors_fast_step s a₂).emergency_stop_active = false ∧
    (∀ cmd a, (task_sensors_fast_step { s with active_command := cmd } a).emergency_stop_active
      = (task_sensors_fast_step s a).emergency_stop_active) := by
  have hdanger : ∀ t : HermesState,
      (task_sensors_fast_step t a₁).emergency_stop_active = true := by
    intro t
    rcases hd with h | h <;>
      · subst h
        by_cases he : t.emergency_stop_active <;>
          simp [task_sensors_fast_step, gas_emergency_stop, he]
  have hsafe : ∀ t : HermesState,
      (task_sensors_fast_step t a₂).emergency_stop_active = false := by
    intro t
    rcases hs with h | h <;>
      · subst h
        by_cases he : t.emergency_stop_active <;>
          simp [task_sensors_fast_step, he]
  refine ⟨hdanger s, hsafe _, hsafe s, fun cmd a => ?_⟩
  by_cases ha : a = "peligro" ∨ a = "critico" <;>
    by_cases he : s.emergency_stop_active <;>
      simp [task_sensors_fast_step, gas_emergency_stop, ha, he]

/-- C4 witness: from a moving, non-emergency concrete state, a "critico"
reading raises the flag, a following "normal" reading clears it again,
and renaming the active command does not change the outcome. -/
theorem c4_gas_emergency_level_triggered_witness :
    (task_sensors_fast_step
        ⟨"adelante", 0, 0, 0, 0, false, (1023, 1023, 1023, 1023)⟩
        "critico").emergency_stop_active = true ∧
    (task_sensors_fast_step
        (task_sensors_fast_step
          ⟨"adelante", 0, 0, 0, 0, false, (1023, 1023, 1023, 1023)⟩ "critico")
        "normal").emergency_stop_active = false ∧
    (task_sensors_fast_step
        ⟨"adelante", 0, 0, 0, 0, false, (1023, 1023, 1023, 1023)⟩
        "normal").emergency_stop_active = false ∧
    (∀ cmd a, (task_sensors_fast_step
        ⟨cmd, 0, 0, 0, 0, false, (1023, 1023, 1023, 1023)⟩ a).emergency_stop_active
      = (task_sensors_fast_step
        ⟨"adelante", 0, 0, 0, 0, false, (1023, 1023, 1023, 1023)⟩ a).emergency_stop_active) :=
  c4_gas_emergency_level_triggered
    ⟨"adelante", 0, 0, 0, 0, false, (1023, 1023, 1023, 1023)⟩
    "critico" "normal" (Or.inr rfl) (Or.inl rfl)

/-- One `HermesSystem.task_sensors_slow` iteration's ultrasonic section
(src/firmware/main.py), given the measurement result and the configured
`SAFETY_CONFIG["obstacle_distance"]` threshold: `if dist and dist > 0`
guards everything, so `None` (timeout) and 0 mean no update; a valid
positive distance below the threshold while the active command is
"adelante" overrides the command to "stop"; the published distances of
the iteration are returned alongside the new state. -/
def task_sensors_slow_step (obstacle_distance : ℚ) (s : HermesState)
    (dist : Option ℚ) : HermesState × List ℚ :=
  match dist with
  | some d =>
    if d ≠ 0 ∧ d > 0 then
      let s1 := if d < obstacle_distance ∧ s.active_command = "adelante"
                then { s with active_command := "stop" }
                else s
      (s1, [d])
    else (s, [])
  | none => (s, [])

/-- C10: whenever the slow-sensor task obtains a valid positive distance
strictly below the obstacle threshold while the active command is
"adelante", it overrides the active command to "stop"; with any other
active command the override never fires (the active command is kept,
whatever the reading). -/
theorem c10_obstacle_override_forward_only (thr : ℚ) (s : HermesState) (d : ℚ) :
    (0 < d → d < thr → s.active_command = "adelante" →
      (task_sensors_slow_step thr s (some d)).1.active_command = "stop") ∧
    (s.active_command ≠ "adelante" →
      ∀ dist : Option ℚ,
        (task_sensors_slow_step thr s dist).1.active_command = s.active_command) := by
  constructor
  · intro hd hthr hcmd
    simp [task_sensors_slow_step, ne_of_gt hd, hd, hthr, hcmd]
  · intro hcmd dist
    match dist with
    | none => rfl
    | some d =>
      by_cases hd : d ≠ 0 ∧ d > 0
      · by_cases hob : d < thr ∧ s.active_command = "adelante"
        · exact absurd hob.2 hcmd
        · simp [task_sensors_slow_step, hd, hob]
      · simp [task_sensors_slow_step, hd]

/-- C10 witness: a 10 cm reading against a 20 cm threshold flips a
concrete "adelante" state to "stop", while the same reading leaves a
"derecha" state untouched. -/
theorem c10_obstacle_override_forward_only_witness :
    (task_sensors_slow_step 20
        ⟨"adelante", 0, 0, 0, 0, false, (1023, 1023, 1023, 1023)⟩
        (some 10)).1.active_command = "stop" ∧
    (task_sensors_slow_step 20
        ⟨"derecha", 0, 0, 0, 0, false, (1023, 1023, 1023, 1023)⟩
        (some 10)).1.active_command = "derecha" :=
  ⟨(c10_obstacle_override_forward_only 20
      ⟨"adelante", 0, 0, 0, 0, false, (1023, 1023, 1023, 1023)⟩ 10).1
      (by norm_num) (by norm_num) rfl,
   (c10_obstacle_override_forward_only 20
      ⟨"derecha", 0, 0, 0, 0, false, (1023, 1023, 1023, 1023)⟩ 10).2
      (by decide) (some 10)⟩

lemma clampDuty_bounds (d : ℤ) : 0 ≤ clampDuty d ∧ clampDuty d ≤ 1023 := by
  unfold clampDuty; omega

lemma clampDuty_of_neg (d : ℤ) (h : d < 0) : clampDuty d = 0 := by
  unfold clampDuty; omega

lemma clampDuty_of_high (d : ℤ) (h : 1023 < d) : clampDuty d = 1023 := by
  unfold clampDuty; omega

/-- The four duties of a motor request as a list, for stating properties
of every applied duty at once. -/
def dutyList (t : ℤ × ℤ × ℤ × ℤ) : List ℤ :=
  [t.1, t.2.1, t.2.2.1, t.2.2.2]

/-- C9: every duty actually applied by `MotorController.set_speeds` (for
either emergency state) and by `MotorDriver.set_speed_differential` lies
in [0, 1023], for every requested value — and out-of-range requests are
clamped to the nearest bound rather than rejected or passed through: a
request truncating below 0 is applied as 0 and one truncating above 1023
is applied as 1023. -/
theorem c9_duties_always_clamped (e : Bool) (d1 d2 d3 d4 al ar : ℚ) :
    (∀ x ∈ dutyList (set_speeds e d1 d2 d3 d4), 0 ≤ x ∧ x ≤ 1023) ∧
    (∀ x ∈ dutyList (set_speed_differential al ar), 0 ≤ x ∧ x ≤ 1023) ∧
    (pyInt d1 < 0 → (set_speeds false d1 d2 d3 d4).1 = 0) ∧
    (1023 < pyInt d1 → (set_speeds false d1 d2 d3 d4).1 = 1023) := by
  refine ⟨?_, ?_, fun h => ?_, fun h => ?_⟩
  · intro x hx
    cases e <;> simp [set_speeds, dutyList] at hx <;>
      rcases hx with rfl | rfl | rfl | rfl <;> exact clampDuty_bounds _
  · intro x hx
    simp [set_speed_differential, dutyList] at hx
    rcases hx with rfl | rfl <;> exact clampDuty_bounds _
  · simp [set_speeds]
    exact clampDuty_of_neg _ h
  · simp [set_speeds]
    exact clampDuty_of_high _ h

/-- C9 witness: a request of (-300, 41.5, 2000, 1023) is applied as
(0, 41, 1023, 1023), all inside [0, 1023], and the differential driver
clamps adjustments +900 and -2000 to 1023 and 0. -/
theorem c9_duties_always_clamped_witness :
    (∀ x ∈ dutyList (set_speeds false (-300) (83/2) 2000 1023), 0 ≤ x ∧ x ≤ 1023) ∧
    (∀ x ∈ dutyList (set_speed_differential 900 (-2000)), 0 ≤ x ∧ x ≤ 1023) ∧
    (set_speeds false (-300) (83/2) 2000 1023).1 = 0 := by
  have h := c9_duties_always_clamped false (-300) (83/2) 2000 1023 900 (-2000)
  refine ⟨h.1, h.2.1, h.2.2.1 ?_⟩
  have : ((-300 : ℚ)) = ((-300 : ℤ) : ℚ) := by norm_num
  rw [pyInt, if_neg (by norm_num), this, Int.ceil_intCast]
  norm_num

/-- The `movements` dictionary local to `MotorDriver.move`
(src/firmware/drivers.py), verbatim: per-motor (PWM, direction) for the
five named movements, with `MAX_PWM = TURN_PWM = 1023`. -/
def driver_movements : List (String × Movement) :=
  [ ("FORWARD",  ⟨⟨1023, "horario"⟩, ⟨1023, "horario"⟩,
                  ⟨1023, "horario"⟩, ⟨1023, "horario"⟩⟩),
    ("BACKWARD", ⟨⟨1023, "antihorario"⟩, ⟨1023, "antihorario"⟩,
                  ⟨1023, "antihorario"⟩, ⟨1023, "antihorario"⟩⟩),
    ("LEFT",     ⟨⟨1023, "antihorario"⟩, ⟨1023, "antihorario"⟩,
                  ⟨1023, "horario"⟩, ⟨1023, "horario"⟩⟩),
    ("RIGHT",    ⟨⟨1023, "horario"⟩, ⟨1023, "horario"⟩,
                  ⟨1023, "antihorario"⟩, ⟨1023, "antihorario"⟩⟩),
    ("STOP",     ⟨⟨0, "horario"⟩, ⟨0, "horario"⟩,
                  ⟨0, "horario"⟩, ⟨0, "horario"⟩⟩) ]

/-- The `movements["STOP"]` entry, the default of
`movements.get(direction_name, movements["STOP"])`. -/
def driver_STOP : Movement :=
  ⟨⟨0, "horario"⟩, ⟨0, "horario"⟩, ⟨0, "horario"⟩, ⟨0, "horario"⟩⟩

/-- `MotorDriver.move` (src/firmware/drivers.py): resolve the movement
name through the table with the STOP entry as default, apply each motor's
PWM duty, and write one merged byte per chip — 0xFF AND the two resident
motors' masks.  Returns (duties, chip-1 byte, chip-2 byte). -/
def MotorDriver_move (direction_name : String) : (ℤ × ℤ × ℤ × ℤ) × Nat × Nat :=
  let cmd := (driver_movements.lookup direction_name).getD driver_STOP
  let duties := (cmd.M1.pwm, cmd.M2.pwm, cmd.M3.pwm, cmd.M4.pwm)
  let pcf1 := Nat.land (Nat.land 0xFF (maskOf 1 cmd.M1.direction)) (maskOf 2 cmd.M2.direction)
  let pcf2 := Nat.land (Nat.land 0xFF (maskOf 3 cmd.M3.direction)) (maskOf 4 cmd.M4.direction)
  (duties, pcf1, pcf2)

/-- C6 counterexample: the command string "xyz" is not resolved by the
alias table to any known movement, yet after handling it the active
command is "xyz", not "stop" — the handler does not canonicalize
unrecognized commands to STOP (it installs the unresolved string and only
stops the motors); and a malformed payload is not treated as a bare
command string: handling it changes nothing at all, whereas treating the
raw text "forward" as a bare command would have installed "adelante". -/
theorem c6_counterexample :
    (handle_command 3 ⟨"adelante", 0, 0, 0, 0, false, (9, 9, 9, 9)⟩
        (.jsonObj (some "xyz"))).active_command = "xyz" ∧
    (handle_command 3 ⟨"adelante", 0, 0, 0, 0, false, (9, 9, 9, 9)⟩
        (.jsonObj (some "xyz"))).active_command ≠ "stop" ∧
    handle_command 3 ⟨"adelante", 0, 0, 0, 0, false, (9, 9, 9, 9)⟩ .malformed
      = ⟨"adelante", 0, 0, 0, 0, false, (9, 9, 9, 9)⟩ := by
  refine ⟨by decide, by decide, rfl⟩

/-- C6 (amended): command handling never propagates an error, but the
fallback shape differs from the claim: a decoded command string that the
alias table leaves unresolved and that names no known movement is
installed verbatim as `active_command` (not canonicalized to "stop")
while the motors are stopped immediately; a malformed payload is silently
ignored, leaving the whole state unchanged (it is not re-tried as a bare
command string); and at the motor-driver layer `MotorDriver.move` does
canonicalize an unknown movement name to its STOP entry. -/
theorem c6_unrecognized_command_fallback (now : ℚ) (s : HermesState) :
    (∀ p c, decode_cmd p = some c → ROBOT_MOVEMENTS.lookup c = none →
      (handle_command now s p).active_command = c ∧
      (handle_command now s p).duties = (0, 0, 0, 0)) ∧
    handle_command now s .malformed = s ∧
    (∀ name, driver_movements.lookup name = none →
      MotorDriver_move name = MotorDriver_move "STOP") := by
  refine ⟨fun p c h1 h2 => ?_, rfl, fun name h => ?_⟩
  · have hs : (ROBOT_MOVEMENTS.lookup c).isSome = false := by rw [h2]; rfl
    simp only [handle_command, h1, hs, Bool.false_eq_true, if_false, motors_stop]
    exact ⟨trivial, trivial⟩
  · simp only [MotorDriver_move, h]
    rfl

/-- C6 amended witness: the unresolved command "girar" is installed as
the active command with the motors stopped, and the unknown movement name
"SPIN" drives the motor driver exactly like "STOP". -/
theorem c6_unrecognized_command_fallback_witness :
    (handle_command 3 ⟨"adelante", 0, 0, 0, 0, false, (9, 9, 9, 9)⟩
        (.jsonObj (some "girar"))).active_command = "girar" ∧
    (handle_command 3 ⟨"adelante", 0, 0, 0, 0, false, (9, 9, 9, 9)⟩
        (.jsonObj (some "girar"))).duties = (0, 0, 0, 0) ∧
    MotorDriver_move "SPIN" = MotorDriver_move "STOP" := by
  have h := c6_unrecognized_command_fallback 3
      ⟨"adelante", 0, 0, 0, 0, false, (9, 9, 9, 9)⟩
  have h1 := h.1 (.jsonObj (some "girar")) "girar" (by decide) (by decide)
  exact ⟨h1.1, h1.2, h.2.2 "SPIN" (by decide)⟩

/-- One edge-wait loop of `UltrasonicSensor.measure_distance_async`
(src/firmware/main.py): the echo bit (a function of the microsecond
clock) is polled once per cooperative 1 ms yield starting at `tStart`;
the poll at elapsed time `1000 * k` either sees the wanted level and
returns that instant, or gives up with `None` once the elapsed time
exceeds the 30000 µs timeout.  `fuel` bounds the recursion; 32 polls
always reach either exit, so the fuel never runs out when it is ≥ 32. -/
def echoPoll (echo : ℕ → Bool) (tStart : ℕ) (want : Bool) : ℕ → ℕ → Option ℕ
  | 0, _ => none
  | fuel + 1, k =>
    let t := tStart + 1000 * k
    if echo t = want then some t
    else if 1000 * k > 30000 then none
    else echoPoll echo tStart want fuel (k + 1)

/-- `UltrasonicSensor.measure_distance_async` (src/firmware/main.py)
after the trigger pulse, with `t0` the clock value when the rising-edge
wait begins: wait for the echo to go high, then wait from the rise
instant `t1` for it to go low, and convert the high duration to
centimetres as `duration * 0.0343 / 2`; a timeout on either wait yields
`None`. -/
def measure_distance_async (echo : ℕ → Bool) (t0 : ℕ) : Option ℚ :=
  match echoPoll echo t0 true 32 0 with
  | none => none
  | some t1 =>
    match echoPoll echo t1 false 32 0 with
    | none => none
    | some t2 => some (((t2 - t1 : ℕ) : ℚ) * (343 / 10000) / 2)

/-- One edge-wait busy loop of `UltrasonicDriver.get_distance_cm`
(src/firmware/drivers.py): no yield, so consecutive polls are separated
by the I2C read latency `δ`; the loop gives up once more than 20000 µs
have elapsed.  With `δ ≥ 1` at most 20002 polls reach an exit, so the
fuel never runs out when it is ≥ 20002. -/
def busyPoll (echo : ℕ → Bool) (tStart δ : ℕ) (want : Bool) : ℕ → ℕ → Option ℕ
  | 0, _ => none
  | fuel + 1, k =>
    let t := tStart + δ * k
    if echo t = want then some t
    else if δ * k > 20000 then none
    else busyPoll echo tStart δ want fuel (k + 1)

/-- `UltrasonicDriver.get_distance_cm` (src/firmware/drivers.py): same
protocol with a 20000 µs timeout per edge and the sentinel `-1` (not an
exception) for a timeout or error. -/
def get_distance_cm (echo : ℕ → Bool) (t0 δ : ℕ) : ℚ :=
  match busyPoll echo t0 δ true 20002 0 with
  | none => -1
  | some t1 =>
    match busyPoll echo t1 δ false 20002 0 with
    | none => -1
    | some t2 => ((t2 - t1 : ℕ) : ℚ) * (343 / 10000) / 2

/-- C7: if either edge wait of the async measurement times out, the
measurement is the sentinel `none` — never `some 0` and, being a total
function, never an exception — and the slow-sensor task treats that
sentinel as "no update this cycle": the state is unchanged and nothing is
published, so no obstacle logic fires.  Likewise the driver variant
returns the sentinel -1 (not 0) when either of its edge waits times
out. -/
theorem c7_timeout_yields_invalid_sentinel (echo : ℕ → Bool) (t0 : ℕ) :
    (echoPoll echo t0 true 32 0 = none → measure_distance_async echo t0 = none) ∧
    (∀ t1, echoPoll echo t0 true 32 0 = some t1 →
      echoPoll echo t1 false 32 0 = none → measure_distance_async echo t0 = none) ∧
    (measure_distance_async echo t0 = none →
      measure_distance_async echo t0 ≠ some 0 ∧
      ∀ (thr : ℚ) (s : HermesState),
        task_sensors_slow_step thr s (measure_distance_async echo t0) = (s, [])) ∧
    (∀ δ, busyPoll echo t0 δ true 20002 0 = none →
      get_distance_cm echo t0 δ = -1 ∧ get_distance_cm echo t0 δ ≠ 0) ∧
    (∀ δ t1, busyPoll echo t0 δ true 20002 0 = some t1 →
      busyPoll echo t1 δ false 20002 0 = none → get_distance_cm echo t0 δ = -1) := by
  refine ⟨fun h => ?_, fun t1 h1 h2 => ?_, fun h => ?_, fun δ h => ?_, fun δ t1 h1 h2 => ?_⟩
  · simp [measure_distance_async, h]
  · simp [measure_distance_async, h1, h2]
  · rw [h]
    exact ⟨by simp, fun thr s => rfl⟩
  · rw [get_distance_cm, h]
    exact ⟨rfl, by norm_num⟩
  · simp [get_distance_cm, h1, h2]

/-- C7 witness: an echo line that never rises times out the rising-edge
wait; the async measurement returns `none`, a concrete slow-sensor
iteration fed that result changes nothing and publishes nothing, and the
driver variant returns -1. -/
theorem c7_timeout_yields_invalid_sentinel_witness :
    measure_distance_async (fun _ => false) 0 = none ∧
    task_sensors_slow_step 20 ⟨"adelante", 0, 0, 0, 0, false, (9, 9, 9, 9)⟩
        (measure_distance_async (fun _ => false) 0)
      = (⟨"adelante", 0, 0, 0, 0, false, (9, 9, 9, 9)⟩, []) ∧
    get_distance_cm (fun _ => false) 0 30000 = -1 := by
  have h := c7_timeout_yields_invalid_sentinel (fun _ => false) 0
  have h1 : measure_distance_async (fun _ => false) 0 = none := h.1 rfl
  exact ⟨h1, (h.2.2.1 h1).2 20 ⟨"adelante", 0, 0, 0, 0, false, (9, 9, 9, 9)⟩,
    (h.2.2.2.1 30000 rfl).1⟩

/-- The smoke-curve slope from `MQ2Driver.read_ppm`
(src/firmware/drivers.py): `m = -0.485`.  (The `MQ2_SMOKE_M` constant
main.py reads from its legacy config carries the same value, as
drivers.py records.) -/
noncomputable def MQ2_SMOKE_M : ℝ := -0.485

/-- The smoke-curve intercept from `MQ2Driver.read_ppm`: `b = 1.51`. -/
noncomputable def MQ2_SMOKE_B : ℝ := 1.51

/-- The ppm computation of `MQ2Sensor._calculate_ppm`
(src/firmware/main.py) as a function of the resistance ratio
`rs / r0`: a non-positive ratio yields 0 (log10 undefined), otherwise
`max(0.0, 10 ** ((log10(ratio) - b) / m))`. -/
noncomputable def ppm_of_ratio (m b : ℝ) (ratio : ℝ) : ℝ :=
  if ratio ≤ 0 then 0
  else max 0 ((10 : ℝ) ^ ((Real.logb 10 ratio - b) / m))

lemma ppm_of_ratio_antitone (m b r1 r2 : ℝ) (hm : m < 0)
    (h1 : 0 < r1) (h12 : r1 ≤ r2) :
    ppm_of_ratio m b r2 ≤ ppm_of_ratio m b r1 := by
  have h2 : 0 < r2 := lt_of_lt_of_le h1 h12
  rw [ppm_of_ratio, ppm_of_ratio, if_neg (not_le.mpr h1), if_neg (not_le.mpr h2)]
  refine max_le_max le_rfl ?_
  refine Real.rpow_le_rpow_of_exponent_le (by norm_num) ?_
  have hlog : Real.logb 10 r1 ≤ Real.logb 10 r2 :=
    Real.logb_le_logb_of_le (by norm_num) h1 h12
  have hsub : Real.logb 10 r1 - b ≤ Real.logb 10 r2 - b := by linarith
  rw [div_eq_mul_inv, div_eq_mul_inv]
  exact mul_le_mul_of_nonpos_right hsub (inv_lt_zero.mpr hm).le

/-- C8: with the fixed curve constants (slope -0.485 < 0, intercept
1.51), the computed ppm is monotonically non-increasing in the
resistance ratio — for 0 < r1 ≤ r2 the ppm at r1 is at least the ppm at
r2 — and every non-positive ratio yields ppm 0. -/
theorem c8_ppm_antitone_in_ratio :
    (∀ r1 r2 : ℝ, 0 < r1 → r1 ≤ r2 →
      ppm_of_ratio MQ2_SMOKE_M MQ2_SMOKE_B r2 ≤ ppm_of_ratio MQ2_SMOKE_M MQ2_SMOKE_B r1) ∧
    (∀ r : ℝ, r ≤ 0 → ppm_of_ratio MQ2_SMOKE_M MQ2_SMOKE_B r = 0) ∧
    MQ2_SMOKE_M < 0 := by
  refine ⟨fun r1 r2 h1 h12 => ?_, fun r hr => ?_, ?_⟩
  · exact ppm_of_ratio_antitone MQ2_SMOKE_M MQ2_SMOKE_B r1 r2
      (by norm_num [MQ2_SMOKE_M]) h1 h12
  · rw [ppm_of_ratio, if_pos hr]
  · norm_num [MQ2_SMOKE_M]

/-- C8 witness: at the concrete ratios 1 ≤ 10 the ppm is non-increasing,
and the non-positive ratio -2 yields ppm 0. -/
theorem c8_ppm_antitone_in_ratio_witness :
    ppm_of_ratio MQ2_SMOKE_M MQ2_SMOKE_B 10 ≤ ppm_of_ratio MQ2_SMOKE_M MQ2_SMOKE_B 1 ∧
    ppm_of_ratio MQ2_SMOKE_M MQ2_SMOKE_B (-2) = 0 :=
  ⟨c8_ppm_antitone_in_ratio.1 1 10 (by norm_num) (by norm_num),
   c8_ppm_antitone_in_ratio.2.1 (-2) (by norm_num)⟩

end Hermes
